import Mathlib

/-!
Verification development for the wickedbased configuration library
(typed DigitalOcean App Platform deployment objects with Zod validation
and a JSON → YAML serialization pipeline).

The definitions below are a shallow embedding of the TypeScript sources:

* `src/serialization/transformers.ts` — `camelToSnake`, `transformKeys`,
  `removeEmpty`, `isPulumiOutput`;
* `src/serialization/serializer.ts` — `toYAML`, `toYAMLSync`,
  `extractPulumiOutputs`, `replacePulumiOutputs`;
* `src/validation/schemas.ts` — the Zod schemas for the five
  configuration entities and the aggregate base;
* `src/base/AppPlatformResource.ts` — the shared aggregate base
  (env-var list with `addEnv`/`removeEnv`/`getEnv`/`listEnvs`);
* `src/resources/Service.ts`, `Job.ts`, `Worker.ts` — the aggregates;
* `src/config/*.ts` — the entity classes and their `toJSON` projections;
* `src/base/ValidationError.ts` — the structured validation-failure class.

JavaScript runtime values flowing through the serializer are modelled by
the inductive type `JValue`; JS numbers appear in this library only as
the (integral) values the schemas accept, so they are modelled as `Int`.
Zod's `.parse` throws on failure; parsing is modelled as `Except` with
the first failing rule's issue (issues are produced in field declaration
order, matching what `fromZodError` exposes).
-/

/-- A JavaScript runtime value as seen by the serialization pipeline.
`undef` is JS `undefined` (a present object entry whose value is
`undefined`), `null` is JS `null`.  `deferred` models an opaque Pulumi
Output handle: an external object exposing an `isSecret` marker and a
`then` resolution hook; its internals belong to the external Pulumi
library, so it is kept as an opaque leaf (the pipeline never owns or
rewrites its insides).  Plain objects are insertion-ordered key/value
lists, as `Object.entries` preserves string-key insertion order. -/
inductive JValue where
  | undef
  | null
  | bool (b : Bool)
  | num (n : Int)
  | str (s : String)
  | deferred (id : Nat)
  | arr (xs : List JValue)
  | obj (kvs : List (String × JValue))

/-- `val !== undefined && val !== null` is false, i.e. the value is one of
the two JS "nullish" values. -/
def JValue.isNullish : JValue → Bool
  | .undef => true
  | .null => true
  | _ => false

/-- Embeds `camelToSnake` (src/serialization/transformers.ts):
`str.replace(/[A-Z]/g, letter => '_' + letter.toLowerCase())` — every
ASCII uppercase letter is replaced by an underscore followed by its
lowercase form; all other characters pass through. -/
def camelToSnake (s : String) : String :=
  String.mk (s.data.flatMap (fun c => if c.isUpper then ['_', c.toLower] else [c]))

mutual

/-- Embeds `transformKeys` (src/serialization/transformers.ts):
`null`/`undefined` are returned as-is, arrays are mapped recursively,
objects get every key rewritten by `camelToSnake` with values
transformed recursively, and any other value is returned unchanged.
The opaque deferred handle is an external object whose insides the
pipeline does not own; it is modelled as passing through as a leaf. -/
def transformKeys : JValue → JValue
  | .arr xs => .arr (transformKeysList xs)
  | .obj kvs => .obj (transformKeysObj kvs)
  | v => v

def transformKeysList : List JValue → List JValue
  | [] => []
  | v :: vs => transformKeys v :: transformKeysList vs

def transformKeysObj : List (String × JValue) → List (String × JValue)
  | [] => []
  | (k, v) :: kvs => (camelToSnake k, transformKeys v) :: transformKeysObj kvs

end

mutual

/-- Embeds `removeEmpty` (src/serialization/transformers.ts).
`none` is the TS result `undefined`.  `null`/`undefined` become
`undefined`; array entries that clean to `undefined` are dropped and an
array that becomes empty is itself `undefined`; object entries whose
cleaned value is `undefined` are dropped and an object with no
surviving entries is itself `undefined`; every other value (scalars,
and the opaque deferred handle, modelled as a leaf) is kept as-is. -/
def removeEmpty : JValue → Option JValue
  | .undef => none
  | .null => none
  | .arr xs =>
      let f := removeEmptyList xs
      if f.isEmpty then none else some (.arr f)
  | .obj kvs =>
      let f := removeEmptyObj kvs
      if f.isEmpty then none else some (.obj f)
  | v => some v

def removeEmptyList : List JValue → List JValue
  | [] => []
  | v :: vs =>
      match removeEmpty v with
      | none => removeEmptyList vs
      | some w => w :: removeEmptyList vs

def removeEmptyObj : List (String × JValue) → List (String × JValue)
  | [] => []
  | (k, v) :: kvs =>
      match removeEmpty v with
      | none => removeEmptyObj kvs
      | some w => (k, w) :: removeEmptyObj kvs

end

/-- Embeds `isPulumiOutput` (src/serialization/transformers.ts): a value
is recognized as a deferred Pulumi Output when it is a non-null object
exposing both an `isSecret` property and a `then` property (duck-typed
capability check).  The opaque external handle (`deferred`) exposes
both by contract; a plain object is recognized exactly when it carries
both keys.  Primitives, `null`, `undefined` and arrays are not. -/
def isPulumiOutput : JValue → Bool
  | .deferred _ => true
  | .obj kvs =>
      (kvs.any (fun kv => kv.1 == "isSecret")) && (kvs.any (fun kv => kv.1 == "then"))
  | _ => false

mutual

/-- Embeds the emptiness of `extractPulumiOutputs` (
src/serialization/serializer.ts): `hasPulumiOutput v = true` iff
`extractPulumiOutputs(v).length > 0`.  A value recognized by
`isPulumiOutput` is collected without recursing into it; otherwise
arrays and objects are searched recursively. -/
def hasPulumiOutput (v : JValue) : Bool :=
  if isPulumiOutput v then true
  else
    match v with
    | .arr xs => hasPulumiList xs
    | .obj kvs => hasPulumiObj kvs
    | _ => false

def hasPulumiList : List JValue → Bool
  | [] => false
  | v :: vs => hasPulumiOutput v || hasPulumiList vs

def hasPulumiObj : List (String × JValue) → Bool
  | [] => false
  | (_, v) :: kvs => hasPulumiOutput v || hasPulumiObj kvs

end

mutual

/-- Embeds `replacePulumiOutputs` (src/serialization/serializer.ts):
every value recognized by `isPulumiOutput` is replaced by its resolved
value; the TS identity `Map` built from the batch `pulumi.all` call is
modelled as the resolution function `resolve` (the same deferred value
resolves to the same result). -/
def replacePulumiOutputs (resolve : JValue → JValue) (v : JValue) : JValue :=
  if isPulumiOutput v then resolve v
  else
    match v with
    | .arr xs => .arr (replacePulumiList resolve xs)
    | .obj kvs => .obj (replacePulumiObj resolve kvs)
    | w => w

def replacePulumiList (resolve : JValue → JValue) : List JValue → List JValue
  | [] => []
  | v :: vs => replacePulumiOutputs resolve v :: replacePulumiList resolve vs

def replacePulumiObj (resolve : JValue → JValue) :
    List (String × JValue) → List (String × JValue)
  | [] => []
  | (k, v) :: kvs => (k, replacePulumiOutputs resolve v) :: replacePulumiObj resolve kvs

end

/-- Two spaces of indentation per nesting level (`indent: 2`). -/
def indentStr (ind : Nat) : String :=
  String.mk (List.replicate (2 * ind) ' ')

/-- Modelled from the spec: scalar rendering of the YAML printing
library (`js-yaml`), which is an external collaborator and not part of
this repository.  String quoting is explicitly a property of the
collaborator, not of this core, and no claim here depends on it, so
strings are rendered bare.  The unresolved deferred handle renders as
an opaque placeholder. -/
def yamlScalar : JValue → String
  | .str s => s
  | .num n => toString n
  | .bool b => if b then "true" else "false"
  | .null => "null"
  | .undef => ""
  | .deferred _ => "[deferred]"
  | .arr _ => ""
  | .obj _ => ""

mutual

/-- Modelled from the spec: block rendering of one mapping entry by the
external YAML printer — scalars inline on a `key: value` line, an empty
list as `key: []`, an empty mapping as `key: \x7b\x7d`, and non-empty
aggregates in block style on following lines. -/
def yamlEntryLines (ind : Nat) (k : String) (v : JValue) : List String :=
  match v with
  | .arr [] => [indentStr ind ++ k ++ ": []"]
  | .obj [] => [indentStr ind ++ k ++ ": \x7b\x7d"]
  | .arr (x :: xs) => (indentStr ind ++ k ++ ":") :: yamlItemLines ind (x :: xs)
  | .obj (kv :: kvs) => (indentStr ind ++ k ++ ":") :: yamlObjLines (ind + 1) (kv :: kvs)
  | w => [indentStr ind ++ k ++ ": " ++ yamlScalar w]

def yamlObjLines (ind : Nat) : List (String × JValue) → List String
  | [] => []
  | (k, v) :: kvs => yamlEntryLines ind k v ++ yamlObjLines ind kvs

def yamlItemLines (ind : Nat) : List JValue → List String
  | [] => []
  | v :: vs =>
      (match v with
       | .arr [] => [indentStr ind ++ "- []"]
       | .obj [] => [indentStr ind ++ "- \x7b\x7d"]
       | .arr (x :: xs) => (indentStr ind ++ "-") :: yamlItemLines (ind + 1) (x :: xs)
       | .obj (kv :: kvs) => (indentStr ind ++ "-") :: yamlObjLines (ind + 1) (kv :: kvs)
       | w => [indentStr ind ++ "- " ++ yamlScalar w]) ++ yamlItemLines ind vs

end

/-- Modelled from the spec: `yaml.dump(tree, {indent: 2, lineWidth: -1,
noRefs: true, sortKeys: false})` of the external `js-yaml` collaborator
— "a formatted text block with fixed indentation and no line wrapping",
keys in insertion order, 2-space indentation.  The `none` input (a tree
that pruned away entirely) is outside every spec example and rendered
as the empty text. -/
def yamlDump : Option JValue → String
  | none => ""
  | some (.obj kvs) => String.join ((yamlObjLines 0 kvs).map (fun l => l ++ "\n"))
  | some (.arr []) => "[]\n"
  | some (.arr (x :: xs)) => String.join ((yamlItemLines 0 (x :: xs)).map (fun l => l ++ "\n"))
  | some v => yamlScalar v ++ "\n"

/-- Stages 2–3 of the pipeline as composed in serializer.ts:
`yaml.dump(transformKeys(removeEmpty(obj)))` (with
`transformKeys(undefined) = undefined`). -/
def serializePipeline (v : JValue) : String :=
  yamlDump ((removeEmpty v).map transformKeys)

/-- An error thrown by the core, as a JS exception value:
`zodError` is a raw `ZodError` (a list of issues, each carrying a field
path and a message) as thrown by `Schema.parse` and by `addEnv`;
`validationError` is the structured `ValidationError` class of
src/base/ValidationError.ts `{field, value, constraint}`;
`plainError` is a bare `new Error(message)`. -/
inductive ThrownError where
  | zodError (issues : List (List String × String))
  | validationError (field : String) (value : JValue) (constraint : String)
  | plainError (message : String)

/-- Whether a thrown error is the single structured validation-failure
kind `{field, value, constraint}` (the `ValidationError` class). -/
def ThrownError.isStructuredValidationFailure : ThrownError → Bool
  | .validationError _ _ _ => true
  | _ => false

/-- The message of the error thrown by `toYAMLSync` when deferred
values are present (src/serialization/serializer.ts line 168). -/
def pulumiSyncErrorMessage : String :=
  "Pulumi Outputs found. Use async toYAML() instead to resolve them."

/-- Embeds the async `toYAML` (src/serialization/serializer.ts).  When
the tree holds deferred values and a resolution backend is available
(`pulumi` imports successfully), they are batch-resolved and
substituted before stages 2–3; when no backend is available the
`catch` branch proceeds WITHOUT resolution (soft-fail, no error);
with no deferred values the pipeline runs directly.  The function is
total: the async path always produces YAML text. -/
def toYAML (backend : Option (JValue → JValue)) (obj : JValue) : String :=
  if hasPulumiOutput obj then
    match backend with
    | some resolve => serializePipeline (replacePulumiOutputs resolve obj)
    | none => serializePipeline obj
  else
    serializePipeline obj

/-- Embeds `toYAMLSync` (src/serialization/serializer.ts): throws a
plain `Error` when any deferred value is present anywhere in the tree,
otherwise performs stages 2–3 directly. -/
def toYAMLSync (obj : JValue) : Except ThrownError String :=
  if hasPulumiOutput obj then
    .error (.plainError pulumiSyncErrorMessage)
  else
    .ok (serializePipeline obj)

/-- JS `String.prototype.trim()`, modelled over the character list:
strips leading and trailing whitespace. -/
def jsTrim (s : String) : String :=
  String.mk (((s.data.dropWhile Char.isWhitespace).reverse.dropWhile
    Char.isWhitespace).reverse)

/-- JS `startsWith('/')`: the first character is a slash. -/
def jsStartsWithSlash (s : String) : Bool :=
  match s.data with
  | [] => false
  | c :: _ => c == '/'

/-- The first failing rule of a Zod parse: its field path and its
human-readable constraint message (what `fromZodError` exposes as
`field` and `constraint`). -/
structure ZIssue where
  path : List String
  message : String
deriving DecidableEq

/-- `type: enum{GENERAL, SECRET}` (src/validation/schemas.ts). -/
inductive EnvVarType where
  | GENERAL
  | SECRET
deriving DecidableEq

def EnvVarType.toStr : EnvVarType → String
  | .GENERAL => "GENERAL"
  | .SECRET => "SECRET"

/-- `scope: enum{RUN_TIME, BUILD_TIME, DEPLOY_TIME}` (src/validation/schemas.ts). -/
inductive EnvVarScope where
  | RUN_TIME
  | BUILD_TIME
  | DEPLOY_TIME
deriving DecidableEq

def EnvVarScope.toStr : EnvVarScope → String
  | .RUN_TIME => "RUN_TIME"
  | .BUILD_TIME => "BUILD_TIME"
  | .DEPLOY_TIME => "DEPLOY_TIME"

/-- Raw constructor input for `EnvironmentVariable` (the config record
of src/config/EnvironmentVariable.ts): `key` and `value` are required
at the type level, `type`/`scope` are optional (`none` = omitted =
JS `undefined`, triggering the schema default).  `value` is any JS
value, including `undefined`/`null` passed explicitly. -/
structure EnvironmentVariableInput where
  key : String
  value : JValue
  type : Option EnvVarType := none
  scope : Option EnvVarScope := none

/-- A validated `EnvironmentVariable` (src/config/EnvironmentVariable.ts):
normalized fields with defaults materialized. -/
structure EnvironmentVariable where
  key : String
  value : JValue
  type : EnvVarType
  scope : EnvVarScope

/-- Embeds `EnvironmentVariableSchema.parse` (src/validation/schemas.ts):
`key` must be non-empty after trim; `value` must be neither `undefined`
nor `null` ("Value is required"); `type` defaults to GENERAL and
`scope` to RUN_TIME.  Checks run in field declaration order and the
first failing rule is surfaced. -/
def EnvironmentVariableSchema.parse (c : EnvironmentVariableInput) :
    Except ZIssue EnvironmentVariable :=
  if 0 < (jsTrim c.key).length then
    if c.value.isNullish = false then
      .ok ⟨c.key, c.value, c.type.getD .GENERAL, c.scope.getD .RUN_TIME⟩
    else
      .error ⟨["value"], "Value is required"⟩
  else
    .error ⟨["key"], "Key must be non-empty"⟩

/-- `EnvironmentVariable.toJSON()` — all four fields, enum values as
their token strings. -/
def EnvironmentVariable.toJSON (e : EnvironmentVariable) : JValue :=
  .obj [("key", .str e.key), ("value", e.value),
        ("type", .str e.type.toStr), ("scope", .str e.scope.toStr)]

/-- The constructor input corresponding to `toJSON()` of an already
validated `EnvironmentVariable`: every field present, defaults
materialized (feeding the projection back into the constructor). -/
def EnvironmentVariable.toInput (e : EnvironmentVariable) : EnvironmentVariableInput :=
  { key := e.key, value := e.value, type := some e.type, scope := some e.scope }

/-- Raw constructor input for `HealthCheck`
(src/config/HealthCheck.ts): `httpPath` and `port` required, the five
numeric tuning fields optional (`none` = omitted, schema default
applies). -/
structure HealthCheckInput where
  httpPath : String
  port : Int
  initialDelaySeconds : Option Int := none
  periodSeconds : Option Int := none
  timeoutSeconds : Option Int := none
  successThreshold : Option Int := none
  failureThreshold : Option Int := none

/-- A validated `HealthCheck` (src/config/HealthCheck.ts). -/
structure HealthCheck where
  httpPath : String
  port : Int
  initialDelaySeconds : Int
  periodSeconds : Int
  timeoutSeconds : Int
  successThreshold : Int
  failureThreshold : Int
deriving DecidableEq

/-- Embeds `HealthCheckSchema.parse` (src/validation/schemas.ts):
`httpPath` non-empty after trim; `port` an integer in 1..65535;
`initialDelaySeconds ≥ 0` (default 0), `periodSeconds ≥ 1` (default
10), `timeoutSeconds ≥ 1` (default 1), `successThreshold ≥ 1` (default
1), `failureThreshold ≥ 1` (default 3).  Checks run in declaration
order; an omitted optional field takes its default without a check. -/
def HealthCheckSchema.parse (c : HealthCheckInput) : Except ZIssue HealthCheck :=
  if 0 < (jsTrim c.httpPath).length then
    if 1 ≤ c.port ∧ c.port ≤ 65535 then
      let ids := c.initialDelaySeconds.getD 0
      let ps := c.periodSeconds.getD 10
      let ts := c.timeoutSeconds.getD 1
      let st := c.successThreshold.getD 1
      let ft := c.failureThreshold.getD 3
      if 0 ≤ ids then
        if 1 ≤ ps then
          if 1 ≤ ts then
            if 1 ≤ st then
              if 1 ≤ ft then
                .ok ⟨c.httpPath, c.port, ids, ps, ts, st, ft⟩
              else .error ⟨["failureThreshold"], "Number must be greater than or equal to 1"⟩
            else .error ⟨["successThreshold"], "Number must be greater than or equal to 1"⟩
          else .error ⟨["timeoutSeconds"], "Number must be greater than or equal to 1"⟩
        else .error ⟨["periodSeconds"], "Number must be greater than or equal to 1"⟩
      else .error ⟨["initialDelaySeconds"], "Number must be greater than or equal to 0"⟩
    else .error ⟨["port"], "Port must be between 1 and 65535"⟩
  else .error ⟨["httpPath"], "HTTP path must be non-empty"⟩

/-- `HealthCheck.toJSON()` — all seven fields with defaults
materialized. -/
def HealthCheck.toJSON (h : HealthCheck) : JValue :=
  .obj [("httpPath", .str h.httpPath), ("port", .num h.port),
        ("initialDelaySeconds", .num h.initialDelaySeconds),
        ("periodSeconds", .num h.periodSeconds),
        ("timeoutSeconds", .num h.timeoutSeconds),
        ("successThreshold", .num h.successThreshold),
        ("failureThreshold", .num h.failureThreshold)]

/-- The constructor input corresponding to `HealthCheck.toJSON()`. -/
def HealthCheck.toInput (h : HealthCheck) : HealthCheckInput :=
  { httpPath := h.httpPath, port := h.port,
    initialDelaySeconds := some h.initialDelaySeconds,
    periodSeconds := some h.periodSeconds,
    timeoutSeconds := some h.timeoutSeconds,
    successThreshold := some h.successThreshold,
    failureThreshold := some h.failureThreshold }

/-- `registryType: enum{DOCKER_HUB, DOCR, GHCR}` (src/validation/schemas.ts). -/
inductive DockerRegistryType where
  | DOCKER_HUB
  | DOCR
  | GHCR
deriving DecidableEq

def DockerRegistryType.toStr : DockerRegistryType → String
  | .DOCKER_HUB => "DOCKER_HUB"
  | .DOCR => "DOCR"
  | .GHCR => "GHCR"

/-- Raw constructor input for `DockerImage` (src/config/DockerImage.ts):
`registry` optional (`none` = omitted). -/
structure DockerImageInput where
  registryType : DockerRegistryType
  registry : Option String := none
  repository : String
  tag : String

/-- A validated `DockerImage` (src/config/DockerImage.ts). -/
structure DockerImage where
  registryType : DockerRegistryType
  registry : Option String
  repository : String
  tag : String
deriving DecidableEq

/-- Embeds `DockerImageSchema.parse` (src/validation/schemas.ts):
per-field rules in declaration order — `registry`, when specified, must
be non-empty after trim; `repository` and `tag` non-empty after trim —
then the cross-field rule: `registryType = DOCR` requires a present,
non-blank `registry`, attributed to the `registry` path.  The
cross-field refine runs only after the per-field rules pass. -/
def DockerImageSchema.parse (c : DockerImageInput) : Except ZIssue DockerImage :=
  let registryFieldOk : Bool :=
    match c.registry with
    | none => true
    | some r => 0 < (jsTrim r).length
  if registryFieldOk then
    if 0 < (jsTrim c.repository).length then
      if 0 < (jsTrim c.tag).length then
        let docrRegistryOk : Bool :=
          match c.registry with
          | none => false
          | some r => 0 < (jsTrim r).length
        if c.registryType = .DOCR ∧ docrRegistryOk = false then
          .error ⟨["registry"], "DOCR registry type requires non-empty registry field"⟩
        else
          .ok ⟨c.registryType, c.registry, c.repository, c.tag⟩
      else .error ⟨["tag"], "Tag must be non-empty"⟩
    else .error ⟨["repository"], "Repository must be non-empty"⟩
  else .error ⟨["registry"], "Registry must be non-empty when specified"⟩

/-- `DockerImage.toJSON()` (src/config/DockerImage.ts): emits
`registryType`, `repository`, `tag`, and appends `registry` only when
it is set to a truthy (non-empty) string — the key is omitted entirely
when `registry` is unset. -/
def DockerImage.toJSON (d : DockerImage) : JValue :=
  .obj ([("registryType", .str d.registryType.toStr),
         ("repository", .str d.repository),
         ("tag", .str d.tag)] ++
        (match d.registry with
         | none => []
         | some r => if r.length = 0 then [] else [("registry", .str r)]))

/-- The constructor input corresponding to `DockerImage.toJSON()`. -/
def DockerImage.toInput (d : DockerImage) : DockerImageInput :=
  { registryType := d.registryType, registry := d.registry,
    repository := d.repository, tag := d.tag }

/-- A character allowed in a GitHub `owner`/`repo` segment:
`[a-zA-Z0-9_-]`. -/
def isGitHubRepoChar (c : Char) : Bool :=
  c.isAlphanum || c = '_' || c = '-'

/-- Splits a character list at every slash (the segments of the
candidate repo string, slashes excluded). -/
def splitOnSlash : List Char → List (List Char)
  | [] => [[]]
  | c :: rest =>
      if c = '/' then [] :: splitOnSlash rest
      else
        match splitOnSlash rest with
        | seg :: segs => (c :: seg) :: segs
        | [] => [[c]]

/-- Embeds `GITHUB_REPO_PATTERN` (src/validation/schemas.ts):
`/^[a-zA-Z0-9_-]+\/[a-zA-Z0-9_-]+$/` — exactly one slash separating
two non-empty segments of alphanumerics, underscores and hyphens. -/
def githubRepoPatternTest (s : String) : Bool :=
  match splitOnSlash s.data with
  | [owner, repo] =>
      !owner.isEmpty && !repo.isEmpty &&
      owner.all isGitHubRepoChar && repo.all isGitHubRepoChar
  | _ => false

/-- Raw constructor input for `GitHubSource` (src/config/GitHubSource.ts). -/
structure GitHubSourceInput where
  repo : String
  branch : String
  sourceDir : Option String := none
  dockerfilePath : Option String := none
  deployOnPush : Option Bool := none

/-- A validated `GitHubSource` (src/config/GitHubSource.ts). -/
structure GitHubSource where
  repo : String
  branch : String
  sourceDir : String
  dockerfilePath : String
  deployOnPush : Bool
deriving DecidableEq

/-- Embeds `GitHubSourceSchema.parse` (src/validation/schemas.ts):
`repo` must match the owner/repo pattern; `branch` non-empty after
trim; `sourceDir` defaults to "/" (no further check); `dockerfilePath`
defaults to "Dockerfile" and must be non-empty after trim;
`deployOnPush` defaults to false. -/
def GitHubSourceSchema.parse (c : GitHubSourceInput) : Except ZIssue GitHubSource :=
  if githubRepoPatternTest c.repo then
    if 0 < (jsTrim c.branch).length then
      let dp := c.dockerfilePath.getD "Dockerfile"
      if 0 < (jsTrim dp).length then
        .ok ⟨c.repo, c.branch, c.sourceDir.getD "/", dp, c.deployOnPush.getD false⟩
      else .error ⟨["dockerfilePath"], "Dockerfile path must be non-empty"⟩
    else .error ⟨["branch"], "Branch must be non-empty"⟩
  else .error ⟨["repo"], "Must be in format \"owner/repo\""⟩

/-- `GitHubSource.toJSON()` — all five fields with defaults
materialized. -/
def GitHubSource.toJSON (g : GitHubSource) : JValue :=
  .obj [("repo", .str g.repo), ("branch", .str g.branch),
        ("sourceDir", .str g.sourceDir),
        ("dockerfilePath", .str g.dockerfilePath),
        ("deployOnPush", .bool g.deployOnPush)]

/-- The constructor input corresponding to `GitHubSource.toJSON()`. -/
def GitHubSource.toInput (g : GitHubSource) : GitHubSourceInput :=
  { repo := g.repo, branch := g.branch, sourceDir := some g.sourceDir,
    dockerfilePath := some g.dockerfilePath, deployOnPush := some g.deployOnPush }

/-- Raw constructor input for `VolumeMount` (src/config/VolumeMount.ts). -/
structure VolumeMountInput where
  name : String
  mountPath : String
  size : Option String := none

/-- A validated `VolumeMount` (src/config/VolumeMount.ts). -/
structure VolumeMount where
  name : String
  mountPath : String
  size : String
deriving DecidableEq

/-- Embeds the `VolumeMount` constructor (src/config/VolumeMount.ts),
which applies `size ?? '1GB'` before invoking
`VolumeMountSchema.parse`: `name` non-empty after trim; `mountPath`
must start with "/"; `size` must have length ≥ 1 (no trim). -/
def mkVolumeMount (c : VolumeMountInput) : Except ZIssue VolumeMount :=
  let size := c.size.getD "1GB"
  if 0 < (jsTrim c.name).length then
    if jsStartsWithSlash c.mountPath then
      if 0 < size.length then
        .ok ⟨c.name, c.mountPath, size⟩
      else .error ⟨["size"], "Size must be non-empty"⟩
    else .error ⟨["mountPath"], "Must be an absolute path (starting with /)"⟩
  else .error ⟨["name"], "Name must be non-empty"⟩

/-- `VolumeMount.toJSON()` — all three fields. -/
def VolumeMount.toJSON (v : VolumeMount) : JValue :=
  .obj [("name", .str v.name), ("mountPath", .str v.mountPath), ("size", .str v.size)]

/-- The constructor input corresponding to `VolumeMount.toJSON()`. -/
def VolumeMount.toInput (v : VolumeMount) : VolumeMountInput :=
  { name := v.name, mountPath := v.mountPath, size := some v.size }

/-- The `ZodError` issue thrown by `addEnv` on a key collision
(src/base/AppPlatformResource.ts lines 59-65): a custom issue with path
`['key']` and message
`Environment variable with key "<key>" already exists`. -/
def duplicateEnvKeyIssue (key : String) : ZIssue :=
  ⟨["key"], "Environment variable with key \"" ++ key ++ "\" already exists"⟩

/-- Embeds `AppPlatformResource.addEnv`
(src/base/AppPlatformResource.ts), the single implementation inherited
by Service, Job and Worker: if an entry with the same `key` already
exists (`findIndex` succeeds) a ZodError with path `['key']` is thrown
before any mutation; otherwise the variable is pushed onto the end of
the internal list. -/
def addEnvList (envs : List EnvironmentVariable) (env : EnvironmentVariable) :
    Except ZIssue (List EnvironmentVariable) :=
  if envs.any (fun e => e.key == env.key) then
    .error (duplicateEnvKeyIssue env.key)
  else
    .ok (envs ++ [env])

/-- Embeds `AppPlatformResource.removeEnv`: removes the first entry
matching `key` and reports whether a match was removed. -/
def removeEnvList (envs : List EnvironmentVariable) (key : String) :
    List EnvironmentVariable × Bool :=
  match envs with
  | [] => ([], false)
  | e :: rest =>
      if e.key == key then (rest, true)
      else
        let (rest2, removed) := removeEnvList rest key
        (e :: rest2, removed)

/-- Embeds `AppPlatformResource.getEnv`: first entry matching `key`, or
the explicit absent marker (`undefined`). -/
def getEnvList (envs : List EnvironmentVariable) (key : String) :
    Option EnvironmentVariable :=
  envs.find? (fun e => e.key == key)

/-- `source?: DockerImage | GitHubSource` — the tagged union used by
Service, Job and Worker. -/
inductive ResourceSource where
  | docker (d : DockerImage)
  | github (g : GitHubSource)

/-- `toJSON()` of a source value: the projection of whichever variant
is held. -/
def ResourceSource.toJSON : ResourceSource → JValue
  | .docker d => d.toJSON
  | .github g => g.toJSON

/-- `INSTANCE_SIZE_SLUGS` (src/validation/schemas.ts): the eight
recognized DigitalOcean instance size tokens. -/
def INSTANCE_SIZE_SLUGS : List String :=
  ["basic-xxs", "basic-xs", "basic-s", "basic-m",
   "professional-xs", "professional-s", "professional-m", "professional-l"]

/-- Raw constructor input for `Service` (src/resources/Service.ts):
nested entity instances are retained by reference, so they appear here
as already-validated values; primitive fields are validated by the
constructor. -/
structure ServiceInput where
  name : String
  instanceSizeSlug : String
  instanceCount : Int
  httpPort : Option Int := none
  internalPorts : Option (List Int) := none
  healthCheck : Option HealthCheck := none
  runCommand : Option String := none
  volumes : Option (List VolumeMount) := none
  source : Option ResourceSource := none
  envs : Option (List EnvironmentVariable) := none

/-- A constructed `Service` (src/resources/Service.ts): base fields
(`name`, `envs`) plus the service-specific fields. -/
structure Service where
  name : String
  instanceSizeSlug : String
  instanceCount : Int
  httpPort : Option Int
  internalPorts : Option (List Int)
  healthCheck : Option HealthCheck
  runCommand : Option String
  volumes : Option (List VolumeMount)
  source : Option ResourceSource
  envs : List EnvironmentVariable

/-- Embeds the `Service` constructor: first the base
`AppPlatformResource` validation (`name` non-empty after trim; `envs`
defaults to `[]` and its initial entries are NOT checked for duplicate
keys), then the service-specific primitive fields in declaration order
— `instanceSizeSlug` against the eight-token enum, `instanceCount` an
integer ≥ 1, `httpPort` (when present) in 1..65535, `internalPorts`
entries (when present) in 1..65535; `runCommand` is unchecked.  Nested
entity instances are stored by reference. -/
def mkService (c : ServiceInput) : Except ZIssue Service :=
  if 0 < (jsTrim c.name).length then
    if INSTANCE_SIZE_SLUGS.contains c.instanceSizeSlug then
      if 1 ≤ c.instanceCount then
        if (match c.httpPort with
            | none => true
            | some p => 1 ≤ p ∧ p ≤ 65535 : Bool) then
          if (match c.internalPorts with
              | none => true
              | some ps => ps.all (fun p => 1 ≤ p ∧ p ≤ 65535) : Bool) then
            .ok ⟨c.name, c.instanceSizeSlug, c.instanceCount, c.httpPort,
                 c.internalPorts, c.healthCheck, c.runCommand, c.volumes,
                 c.source, c.envs.getD []⟩
          else .error ⟨["internalPorts"], "Port must be between 1 and 65535"⟩
        else .error ⟨["httpPort"], "Port must be between 1 and 65535"⟩
      else .error ⟨["instanceCount"], "Instance count must be a positive integer"⟩
    else .error ⟨["instanceSizeSlug"], "Invalid enum value"⟩
  else .error ⟨["name"], "Name must be non-empty"⟩

/-- An optional `toJSON` entry: present only when the field is defined. -/
def optEntry (k : String) : Option JValue → List (String × JValue)
  | none => []
  | some v => [(k, v)]

/-- `Service.toJSON()` (src/resources/Service.ts): `name`,
`instanceSizeSlug`, `instanceCount` and `envs` (always present, `[]`
when empty) first, then each optional field only if defined —
`httpPort`, `internalPorts`, `healthCheck`, `runCommand`, `volumes`
(only if defined AND non-empty), `source` — in that order. -/
def Service.toJSON (s : Service) : JValue :=
  .obj ([("name", .str s.name),
         ("instanceSizeSlug", .str s.instanceSizeSlug),
         ("instanceCount", .num s.instanceCount),
         ("envs", .arr (s.envs.map EnvironmentVariable.toJSON))] ++
        optEntry "httpPort" (s.httpPort.map .num) ++
        optEntry "internalPorts" (s.internalPorts.map (fun ps => .arr (ps.map .num))) ++
        optEntry "healthCheck" (s.healthCheck.map HealthCheck.toJSON) ++
        optEntry "runCommand" (s.runCommand.map .str) ++
        (match s.volumes with
         | none => []
         | some vs =>
             if 0 < vs.length then
               [("volumes", .arr (vs.map VolumeMount.toJSON))]
             else []) ++
        optEntry "source" (s.source.map ResourceSource.toJSON))

/-- `AppPlatformResource.toYAML()` for a Service: computes `toJSON()`
and hands it to the serializer. -/
def Service.toYAMLText (backend : Option (JValue → JValue)) (s : Service) : String :=
  toYAML backend s.toJSON

/-- `Service.addEnv` — inherited unchanged from the base class. -/
def Service.addEnv (s : Service) (env : EnvironmentVariable) : Except ZIssue Service :=
  match addEnvList s.envs env with
  | .ok l => .ok { s with envs := l }
  | .error e => .error e

/-- The aggregate state after an `addEnv` call, including a failed one:
the throw happens before any mutation, so on failure the Service is
unchanged. -/
def Service.afterAddEnv (s : Service) (env : EnvironmentVariable) : Service :=
  match s.addEnv env with
  | .ok s2 => s2
  | .error _ => s

/-- `kind: enum{PRE_DEPLOY, POST_DEPLOY}` (src/resources/Job.ts). -/
inductive JobKind where
  | PRE_DEPLOY
  | POST_DEPLOY
deriving DecidableEq

/-- A constructed `Job` (src/resources/Job.ts). -/
structure Job where
  name : String
  kind : JobKind
  runCommand : String
  instanceSizeSlug : Option String
  instanceCount : Option Int
  source : Option ResourceSource
  envs : List EnvironmentVariable

/-- `Job.addEnv` — inherited unchanged from the base class. -/
def Job.addEnv (j : Job) (env : EnvironmentVariable) : Except ZIssue Job :=
  match addEnvList j.envs env with
  | .ok l => .ok { j with envs := l }
  | .error e => .error e

/-- The Job state after an `addEnv` call, including a failed one. -/
def Job.afterAddEnv (j : Job) (env : EnvironmentVariable) : Job :=
  match j.addEnv env with
  | .ok j2 => j2
  | .error _ => j

/-- A constructed `Worker` (src/resources/Worker.ts). -/
structure Worker where
  name : String
  instanceSizeSlug : String
  instanceCount : Int
  internalPorts : Option (List Int)
  runCommand : Option String
  volumes : Option (List VolumeMount)
  source : Option ResourceSource
  envs : List EnvironmentVariable

/-- `Worker.addEnv` — inherited unchanged from the base class. -/
def Worker.addEnv (w : Worker) (env : EnvironmentVariable) : Except ZIssue Worker :=
  match addEnvList w.envs env with
  | .ok l => .ok { w with envs := l }
  | .error e => .error e

/-- The Worker state after an `addEnv` call, including a failed one. -/
def Worker.afterAddEnv (w : Worker) (env : EnvironmentVariable) : Worker :=
  match w.addEnv env with
  | .ok w2 => w2
  | .error _ => w

/-! ### Sample values used by concrete witnesses -/

/-- A valid environment variable with key "K". -/
def sampleEnvK : EnvironmentVariable := ⟨"K", .str "v1", .GENERAL, .RUN_TIME⟩

/-- A second, distinct environment variable with the same key "K". -/
def sampleEnvKBis : EnvironmentVariable := ⟨"K", .str "v2", .SECRET, .RUN_TIME⟩

/-- A valid environment variable with a fresh key. -/
def sampleEnvNew : EnvironmentVariable := ⟨"NEW", .str "v3", .GENERAL, .RUN_TIME⟩

/-- A Service whose env list already holds key "K". -/
def sampleService : Service :=
  ⟨"rest", "professional-xs", 1, none, none, none, none, none, none, [sampleEnvK]⟩

/-- A Job whose env list already holds key "K". -/
def sampleJob : Job := ⟨"migrate", .PRE_DEPLOY, "npm run migrate", none, none, none, [sampleEnvK]⟩

/-- A Worker whose env list already holds key "K". -/
def sampleWorker : Worker :=
  ⟨"worker", "basic-xxs", 1, none, none, none, none, [sampleEnvK]⟩

/-- A projection tree with no deferred value anywhere. -/
def sampleDeferredFreeTree : JValue :=
  .obj [("name", .str "rest"), ("httpPort", .num 3000)]

/-- A projection tree containing one deferred value. -/
def sampleDeferredTree : JValue :=
  .obj [("name", .str "rest"), ("value", .deferred 0)]

/-! ### Structural helper lemmas -/

theorem transformKeysList_eq_map (xs : List JValue) :
    transformKeysList xs = xs.map transformKeys := by
  induction xs with
  | nil => rfl
  | cons v vs ih => simp [transformKeysList, ih]

theorem transformKeysObj_eq_map (kvs : List (String × JValue)) :
    transformKeysObj kvs = kvs.map (fun kv => (camelToSnake kv.1, transformKeys kv.2)) := by
  induction kvs with
  | nil => rfl
  | cons kv rest ih => simp [transformKeysObj, ih]

/-! ### Claims -/

/-- C4: the emptiness-pruning stage maps
`{a: undefined, b: null, c: [], d: {e: null}, f: 0, g: false}` to
`{f: 0, g: false}` — null/absent values are dropped recursively, a list
or object that becomes empty after pruning is dropped from its parent,
and the scalars `0`, `false` and `""` (and every number, boolean and
string) are never pruned. -/
theorem c4_removeEmpty_prunes_nullish_and_empty_containers :
    removeEmpty (.obj [("a", .undef), ("b", .null), ("c", .arr []),
                       ("d", .obj [("e", .null)]), ("f", .num 0), ("g", .bool false)])
      = some (.obj [("f", .num 0), ("g", .bool false)]) ∧
    (∀ n : Int, removeEmpty (.num n) = some (.num n)) ∧
    (∀ b : Bool, removeEmpty (.bool b) = some (.bool b)) ∧
    (∀ s : String, removeEmpty (.str s) = some (.str s)) :=
  ⟨rfl, fun _ => rfl, fun _ => rfl, fun _ => rfl⟩

/-- C5: the key-renaming stage rewrites every object key by replacing
each uppercase letter with an underscore followed by its lowercase form
(`instanceSizeSlug` → `instance_size_slug`; a run of consecutive
capitals as in `HTTPPath` expands to one underscore per capital letter,
not collapsed), recurses into nested objects and array elements, and
leaves every non-object, non-array leaf value unchanged. -/
theorem c5_transformKeys_renames_recursively_and_preserves_leaves :
    camelToSnake "instanceSizeSlug" = "instance_size_slug" ∧
    camelToSnake "HTTPPath" = "_h_t_t_p_path" ∧
    (∀ kvs : List (String × JValue),
      transformKeys (.obj kvs)
        = .obj (kvs.map (fun kv => (camelToSnake kv.1, transformKeys kv.2)))) ∧
    (∀ xs : List JValue, transformKeys (.arr xs) = .arr (xs.map transformKeys)) ∧
    (∀ b : Bool, transformKeys (.bool b) = .bool b) ∧
    (∀ n : Int, transformKeys (.num n) = .num n) ∧
    (∀ s : String, transformKeys (.str s) = .str s) ∧
    transformKeys .null = .null ∧ transformKeys .undef = .undef := by
  refine ⟨by decide, by decide, fun kvs => ?_, fun xs => ?_,
          fun _ => rfl, fun _ => rfl, fun _ => rfl, rfl, rfl⟩
  · simp [transformKeys, transformKeysObj_eq_map]
  · simp [transformKeys, transformKeysList_eq_map]

/-- C2: for each resource aggregate (Service, Job, Worker — all
inheriting the single base implementation), calling `addEnv` with a
variable whose key already occurs in the env list fails with a
validation issue at field path `key` and leaves the aggregate exactly
as it was, while `addEnv` with a fresh key appends the entry. -/
theorem c2_addEnv_rejects_duplicate_key_and_appends_fresh :
    (∀ (s : Service) (env : EnvironmentVariable),
      (s.envs.any (fun e => e.key == env.key) = true →
        s.addEnv env = .error (duplicateEnvKeyIssue env.key) ∧
        (duplicateEnvKeyIssue env.key).path = ["key"] ∧
        s.afterAddEnv env = s) ∧
      (s.envs.any (fun e => e.key == env.key) = false →
        s.addEnv env = .ok { s with envs := s.envs ++ [env] })) ∧
    (∀ (j : Job) (env : EnvironmentVariable),
      (j.envs.any (fun e => e.key == env.key) = true →
        j.addEnv env = .error (duplicateEnvKeyIssue env.key) ∧
        (duplicateEnvKeyIssue env.key).path = ["key"] ∧
        j.afterAddEnv env = j) ∧
      (j.envs.any (fun e => e.key == env.key) = false →
        j.addEnv env = .ok { j with envs := j.envs ++ [env] })) ∧
    (∀ (w : Worker) (env : EnvironmentVariable),
      (w.envs.any (fun e => e.key == env.key) = true →
        w.addEnv env = .error (duplicateEnvKeyIssue env.key) ∧
        (duplicateEnvKeyIssue env.key).path = ["key"] ∧
        w.afterAddEnv env = w) ∧
      (w.envs.any (fun e => e.key == env.key) = false →
        w.addEnv env = .ok { w with envs := w.envs ++ [env] })) := by
  refine ⟨fun s env => ⟨fun h => ?_, fun h => ?_⟩,
          fun j env => ⟨fun h => ?_, fun h => ?_⟩,
          fun w env => ⟨fun h => ?_, fun h => ?_⟩⟩ <;>
    simp [Service.addEnv, Service.afterAddEnv, Job.addEnv, Job.afterAddEnv,
          Worker.addEnv, Worker.afterAddEnv, addEnvList, duplicateEnvKeyIssue, h]

/-- Witness for C2: concrete aggregates holding key "K"; adding a new
variable with key "K" fails with path `key` and leaves each aggregate
unchanged; adding key "NEW" appends. -/
theorem c2_witness :
    (sampleService.envs.any (fun e => e.key == sampleEnvKBis.key) = true) ∧
    sampleService.addEnv sampleEnvKBis = .error (duplicateEnvKeyIssue "K") ∧
    sampleService.afterAddEnv sampleEnvKBis = sampleService ∧
    sampleService.addEnv sampleEnvNew
      = .ok { sampleService with envs := sampleService.envs ++ [sampleEnvNew] } ∧
    sampleJob.addEnv sampleEnvKBis = .error (duplicateEnvKeyIssue "K") ∧
    sampleJob.afterAddEnv sampleEnvKBis = sampleJob ∧
    sampleJob.addEnv sampleEnvNew
      = .ok { sampleJob with envs := sampleJob.envs ++ [sampleEnvNew] } ∧
    sampleWorker.addEnv sampleEnvKBis = .error (duplicateEnvKeyIssue "K") ∧
    sampleWorker.afterAddEnv sampleEnvKBis = sampleWorker ∧
    sampleWorker.addEnv sampleEnvNew
      = .ok { sampleWorker with envs := sampleWorker.envs ++ [sampleEnvNew] } := by
  have hs := (c2_addEnv_rejects_duplicate_key_and_appends_fresh.1 sampleService sampleEnvKBis).1 rfl
  have hs2 := (c2_addEnv_rejects_duplicate_key_and_appends_fresh.1 sampleService sampleEnvNew).2 rfl
  have hj := (c2_addEnv_rejects_duplicate_key_and_appends_fresh.2.1 sampleJob sampleEnvKBis).1 rfl
  have hj2 := (c2_addEnv_rejects_duplicate_key_and_appends_fresh.2.1 sampleJob sampleEnvNew).2 rfl
  have hw := (c2_addEnv_rejects_duplicate_key_and_appends_fresh.2.2 sampleWorker sampleEnvKBis).1 rfl
  have hw2 := (c2_addEnv_rejects_duplicate_key_and_appends_fresh.2.2 sampleWorker sampleEnvNew).2 rfl
  exact ⟨rfl, hs.1, hs.2.2, hs2, hj.1, hj.2.2, hj2, hw.1, hw.2.2, hw2⟩

/-- C7: on a tree containing at least one deferred value, with no
resolution backend available, the asynchronous `toYAML` path completes
and returns the YAML text of the UNRESOLVED tree (stages 2–3 applied
with no substitution — the soft-fail catch branch, no error), whereas
the synchronous variant raises an error on the same input instead of
proceeding. -/
theorem c7_async_soft_fails_where_sync_errors :
    ∀ t : JValue, hasPulumiOutput t = true →
      toYAML none t = serializePipeline t ∧
      toYAMLSync t = .error (.plainError pulumiSyncErrorMessage) := by
  intro t h
  constructor <;> simp [toYAML, toYAMLSync, h]

/-- Witness for C7 at a concrete deferred-bearing tree. -/
theorem c7_witness :
    hasPulumiOutput sampleDeferredTree = true ∧
    (toYAML none sampleDeferredTree = serializePipeline sampleDeferredTree ∧
     toYAMLSync sampleDeferredTree = .error (.plainError pulumiSyncErrorMessage)) :=
  ⟨rfl, c7_async_soft_fails_where_sync_errors sampleDeferredTree rfl⟩

/-- C9: on every tree with no deferred value anywhere, the awaited
result of the asynchronous `toYAML` equals the result of the
synchronous `toYAMLSync` (whatever resolution backend is or is not
available): both run exactly stages 2–3. -/
theorem c9_async_and_sync_agree_on_deferred_free_trees :
    ∀ (backend : Option (JValue → JValue)) (t : JValue),
      hasPulumiOutput t = false →
      toYAMLSync t = .ok (toYAML backend t) := by
  intro backend t h
  simp [toYAML, toYAMLSync, h]

/-- Witness for C9 at a concrete deferred-free tree. -/
theorem c9_witness :
    hasPulumiOutput sampleDeferredFreeTree = false ∧
    toYAMLSync sampleDeferredFreeTree = .ok (toYAML none sampleDeferredFreeTree) :=
  ⟨rfl, c9_async_and_sync_agree_on_deferred_free_trees none sampleDeferredFreeTree rfl⟩

/-- C10: constructing an EnvironmentVariable with `value` explicitly
`null` fails with constraint "Value is required" at field path `value`,
exactly as when `value` is absent/`undefined`; every non-nullish value
— including `0`, `false`, the empty string, and opaque deferred-value
handles — is accepted for the `value` field. -/
theorem c10_env_var_value_rejects_only_nullish :
    ∀ (k : String) (t : Option EnvVarType) (sc : Option EnvVarScope) (v : JValue),
      0 < (jsTrim k).length →
      EnvironmentVariableSchema.parse ⟨k, .null, t, sc⟩
        = .error ⟨["value"], "Value is required"⟩ ∧
      EnvironmentVariableSchema.parse ⟨k, .undef, t, sc⟩
        = .error ⟨["value"], "Value is required"⟩ ∧
      (v.isNullish = false →
        EnvironmentVariableSchema.parse ⟨k, v, t, sc⟩
          = .ok ⟨k, v, t.getD .GENERAL, sc.getD .RUN_TIME⟩) := by
  intro k t sc v hk
  refine ⟨?_, ?_, fun hv => ?_⟩
  · simp [EnvironmentVariableSchema.parse, JValue.isNullish, hk]
  · simp [EnvironmentVariableSchema.parse, JValue.isNullish, hk]
  · simp [EnvironmentVariableSchema.parse, hk, hv]

/-- Witness for C10: key "PORT"; explicit `null` and `undefined` are
rejected with "Value is required", while `0`, `false`, `""` and a
deferred handle are all accepted. -/
theorem c10_witness :
    (0 < (jsTrim "PORT").length) ∧
    EnvironmentVariableSchema.parse ⟨"PORT", .null, none, none⟩
      = .error ⟨["value"], "Value is required"⟩ ∧
    EnvironmentVariableSchema.parse ⟨"PORT", .undef, none, none⟩
      = .error ⟨["value"], "Value is required"⟩ ∧
    EnvironmentVariableSchema.parse ⟨"PORT", .num 0, none, none⟩
      = .ok ⟨"PORT", .num 0, .GENERAL, .RUN_TIME⟩ ∧
    EnvironmentVariableSchema.parse ⟨"PORT", .bool false, none, none⟩
      = .ok ⟨"PORT", .bool false, .GENERAL, .RUN_TIME⟩ ∧
    EnvironmentVariableSchema.parse ⟨"PORT", .str "", none, none⟩
      = .ok ⟨"PORT", .str "", .GENERAL, .RUN_TIME⟩ ∧
    EnvironmentVariableSchema.parse ⟨"PORT", .deferred 0, none, none⟩
      = .ok ⟨"PORT", .deferred 0, .GENERAL, .RUN_TIME⟩ := by
  have hk : 0 < (jsTrim "PORT").length := by decide
  refine ⟨hk,
    (c10_env_var_value_rejects_only_nullish "PORT" none none .undef hk).1,
    (c10_env_var_value_rejects_only_nullish "PORT" none none .undef hk).2.1,
    (c10_env_var_value_rejects_only_nullish "PORT" none none (.num 0) hk).2.2 rfl,
    (c10_env_var_value_rejects_only_nullish "PORT" none none (.bool false) hk).2.2 rfl,
    (c10_env_var_value_rejects_only_nullish "PORT" none none (.str "") hk).2.2 rfl,
    (c10_env_var_value_rejects_only_nullish "PORT" none none (.deferred 0) hk).2.2 rfl⟩

/-- C6: with valid `repository` and `tag`, a DockerImage with
`registryType = DOCR` and `registry` absent, empty or whitespace-only
always fails at field path `registry`; with `DOCKER_HUB` or `GHCR` an
absent `registry` is never required; and `toJSON()` of an image whose
`registry` is unset omits the `registry` key entirely. -/
theorem c6_docker_image_registry_rules :
    ∀ (r rep tag : String),
      0 < (jsTrim rep).length → 0 < (jsTrim tag).length →
      DockerImageSchema.parse ⟨.DOCR, none, rep, tag⟩
        = .error ⟨["registry"], "DOCR registry type requires non-empty registry field"⟩ ∧
      ((jsTrim r).length = 0 →
        DockerImageSchema.parse ⟨.DOCR, some r, rep, tag⟩
          = .error ⟨["registry"], "Registry must be non-empty when specified"⟩) ∧
      DockerImageSchema.parse ⟨.DOCKER_HUB, none, rep, tag⟩
        = .ok ⟨.DOCKER_HUB, none, rep, tag⟩ ∧
      DockerImageSchema.parse ⟨.GHCR, none, rep, tag⟩ = .ok ⟨.GHCR, none, rep, tag⟩ ∧
      (∀ rt : DockerRegistryType,
        DockerImage.toJSON ⟨rt, none, rep, tag⟩
          = .obj [("registryType", .str rt.toStr), ("repository", .str rep),
                  ("tag", .str tag)]) := by
  intro r rep tag hrep htag
  refine ⟨?_, fun hr => ?_, ?_, ?_, fun rt => ?_⟩
  · simp [DockerImageSchema.parse, hrep, htag]
  · have hr' : ¬ 0 < (jsTrim r).length := by omega
    simp [DockerImageSchema.parse, hr']
  · simp [DockerImageSchema.parse, hrep, htag]
  · simp [DockerImageSchema.parse, hrep, htag]
  · simp [DockerImage.toJSON]

/-- Witness for C6: repository "postgrest", tag "v14.2"; `registry`
absent and whitespace-only both fail at path `registry` under DOCR;
DOCKER_HUB and GHCR accept an absent registry; `toJSON()` omits the
key. -/
theorem c6_witness :
    (0 < (jsTrim "postgrest").length) ∧ (0 < (jsTrim "v14.2").length) ∧
    DockerImageSchema.parse ⟨.DOCR, none, "postgrest", "v14.2"⟩
      = .error ⟨["registry"], "DOCR registry type requires non-empty registry field"⟩ ∧
    DockerImageSchema.parse ⟨.DOCR, some "   ", "postgrest", "v14.2"⟩
      = .error ⟨["registry"], "Registry must be non-empty when specified"⟩ ∧
    DockerImageSchema.parse ⟨.DOCKER_HUB, none, "postgrest", "v14.2"⟩
      = .ok ⟨.DOCKER_HUB, none, "postgrest", "v14.2"⟩ ∧
    DockerImageSchema.parse ⟨.GHCR, none, "postgrest", "v14.2"⟩
      = .ok ⟨.GHCR, none, "postgrest", "v14.2"⟩ ∧
    DockerImage.toJSON ⟨.DOCR, none, "postgrest", "v14.2"⟩
      = .obj [("registryType", .str "DOCR"), ("repository", .str "postgrest"),
              ("tag", .str "v14.2")] := by
  have h := c6_docker_image_registry_rules "   " "postgrest" "v14.2" (by decide) (by decide)
  exact ⟨by decide, by decide, h.1, h.2.1 (by decide), h.2.2.1, h.2.2.2.1,
         h.2.2.2.2 .DOCR⟩

/-- The minimal Service constructor input of the claim:
`{name:"rest", instanceSizeSlug:"professional-xs", instanceCount:1}`,
no environment variables and no optional fields. -/
def c1Input : ServiceInput :=
  { name := "rest", instanceSizeSlug := "professional-xs", instanceCount := 1 }

/-- The Service that `c1Input` constructs. -/
def c1Service : Service :=
  ⟨"rest", "professional-xs", 1, none, none, none, none, none, none, []⟩

/-- C1 (counterexample to the claim as stated): the minimal Service's
awaited `toYAML()` does NOT equal the four-line text ending in
`envs: []` — the emptiness-pruning stage (`removeEmpty`, repository
code) drops the empty `envs` list from the tree before rendering, so
no `envs` line can appear in the output. -/
theorem c1_counterexample_no_envs_line_in_yaml :
    mkService c1Input = .ok c1Service ∧
    removeEmpty c1Service.toJSON
      = some (.obj [("name", .str "rest"),
                    ("instanceSizeSlug", .str "professional-xs"),
                    ("instanceCount", .num 1)]) ∧
    c1Service.toYAMLText none
      ≠ "name: rest\ninstance_size_slug: professional-xs\ninstance_count: 1\nenvs: []\n" := by
  refine ⟨rfl, rfl, ?_⟩
  intro h
  exact absurd (congrArg String.length h) (by decide)

/-- C1 (amended): the minimal Service's `toJSON()` does contain
`envs: []`, but awaiting `toYAML()` yields exactly
`"name: rest\ninstance_size_slug: professional-xs\ninstance_count: 1\n"`
(whatever resolution backend is available): the empty env list is
pruned by the emptiness stage, so the `envs` key is absent from the
YAML text. -/
theorem c1_minimal_service_yaml_prunes_empty_envs :
    mkService c1Input = .ok c1Service ∧
    c1Service.toJSON
      = .obj [("name", .str "rest"),
              ("instanceSizeSlug", .str "professional-xs"),
              ("instanceCount", .num 1),
              ("envs", .arr [])] ∧
    (∀ backend : Option (JValue → JValue),
      c1Service.toYAMLText backend
        = "name: rest\ninstance_size_slug: professional-xs\ninstance_count: 1\n") := by
  refine ⟨rfl, rfl, fun backend => ?_⟩
  have h : hasPulumiOutput c1Service.toJSON = false := rfl
  simp only [Service.toYAMLText, toYAML, h, Bool.false_eq_true, if_false]
  rfl

/-! ### Entity round-trip helper lemmas (one per Configuration Entity) -/

theorem envVarRoundTrip (c : EnvironmentVariableInput) (e : EnvironmentVariable)
    (h : EnvironmentVariableSchema.parse c = .ok e) :
    EnvironmentVariableSchema.parse e.toInput = .ok e := by
  simp only [EnvironmentVariableSchema.parse] at h
  repeat' split at h
  any_goals exact Except.noConfusion h
  injection h with h'
  subst h'
  simp_all [EnvironmentVariableSchema.parse, EnvironmentVariable.toInput]

theorem healthCheckRoundTrip (c : HealthCheckInput) (e : HealthCheck)
    (h : HealthCheckSchema.parse c = .ok e) :
    HealthCheckSchema.parse e.toInput = .ok e := by
  simp only [HealthCheckSchema.parse] at h
  repeat' split at h
  any_goals exact Except.noConfusion h
  injection h with h'
  subst h'
  simp_all [HealthCheckSchema.parse, HealthCheck.toInput]

theorem dockerImageRoundTrip (c : DockerImageInput) (e : DockerImage)
    (h : DockerImageSchema.parse c = .ok e) :
    DockerImageSchema.parse e.toInput = .ok e := by
  simp only [DockerImageSchema.parse] at h
  repeat' split at h
  any_goals exact Except.noConfusion h
  injection h with h'
  subst h'
  simp_all [DockerImageSchema.parse, DockerImage.toInput]

theorem gitHubSourceRoundTrip (c : GitHubSourceInput) (e : GitHubSource)
    (h : GitHubSourceSchema.parse c = .ok e) :
    GitHubSourceSchema.parse e.toInput = .ok e := by
  simp only [GitHubSourceSchema.parse] at h
  repeat' split at h
  any_goals exact Except.noConfusion h
  injection h with h'
  subst h'
  simp_all [GitHubSourceSchema.parse, GitHubSource.toInput]

theorem volumeMountRoundTrip (c : VolumeMountInput) (e : VolumeMount)
    (h : mkVolumeMount c = .ok e) :
    mkVolumeMount e.toInput = .ok e := by
  simp only [mkVolumeMount] at h
  repeat' split at h
  any_goals exact Except.noConfusion h
  injection h with h'
  subst h'
  simp_all [mkVolumeMount, VolumeMount.toInput]

/-- C8: for every Configuration Entity (EnvironmentVariable,
HealthCheck, DockerImage, GitHubSource, VolumeMount) constructed from
valid input, feeding its `toJSON()` projection (all fields present,
defaults materialized — `toInput`) back into the same constructor never
raises a validation failure and reconstructs the same entity, so the
reconstructed entity's `toJSON()` equals the original projection. -/
theorem c8_entity_projection_roundtrip_is_idempotent :
    (∀ (c : EnvironmentVariableInput) (e : EnvironmentVariable),
      EnvironmentVariableSchema.parse c = .ok e →
      EnvironmentVariableSchema.parse e.toInput = .ok e ∧
        (EnvironmentVariableSchema.parse e.toInput).map EnvironmentVariable.toJSON
          = .ok e.toJSON) ∧
    (∀ (c : HealthCheckInput) (e : HealthCheck),
      HealthCheckSchema.parse c = .ok e →
      HealthCheckSchema.parse e.toInput = .ok e ∧
        (HealthCheckSchema.parse e.toInput).map HealthCheck.toJSON = .ok e.toJSON) ∧
    (∀ (c : DockerImageInput) (e : DockerImage),
      DockerImageSchema.parse c = .ok e →
      DockerImageSchema.parse e.toInput = .ok e ∧
        (DockerImageSchema.parse e.toInput).map DockerImage.toJSON = .ok e.toJSON) ∧
    (∀ (c : GitHubSourceInput) (e : GitHubSource),
      GitHubSourceSchema.parse c = .ok e →
      GitHubSourceSchema.parse e.toInput = .ok e ∧
        (GitHubSourceSchema.parse e.toInput).map GitHubSource.toJSON = .ok e.toJSON) ∧
    (∀ (c : VolumeMountInput) (e : VolumeMount),
      mkVolumeMount c = .ok e →
      mkVolumeMount e.toInput = .ok e ∧
        (mkVolumeMount e.toInput).map VolumeMount.toJSON = .ok e.toJSON) := by
  refine ⟨fun c e h => ?_, fun c e h => ?_, fun c e h => ?_, fun c e h => ?_,
          fun c e h => ?_⟩
  · have h2 := envVarRoundTrip c e h
    exact ⟨h2, by rw [h2]; rfl⟩
  · have h2 := healthCheckRoundTrip c e h
    exact ⟨h2, by rw [h2]; rfl⟩
  · have h2 := dockerImageRoundTrip c e h
    exact ⟨h2, by rw [h2]; rfl⟩
  · have h2 := gitHubSourceRoundTrip c e h
    exact ⟨h2, by rw [h2]; rfl⟩
  · have h2 := volumeMountRoundTrip c e h
    exact ⟨h2, by rw [h2]; rfl⟩

/-- Witness for C8: one concrete valid input per entity; parsing
succeeds, and re-parsing the materialized projection reconstructs the
same entity. -/
theorem c8_witness :
    EnvironmentVariableSchema.parse ⟨"PORT", .str "3000", none, none⟩
      = .ok ⟨"PORT", .str "3000", .GENERAL, .RUN_TIME⟩ ∧
    EnvironmentVariableSchema.parse
        (EnvironmentVariable.toInput ⟨"PORT", .str "3000", .GENERAL, .RUN_TIME⟩)
      = .ok ⟨"PORT", .str "3000", .GENERAL, .RUN_TIME⟩ ∧
    HealthCheckSchema.parse ⟨"/health", 8080, none, none, none, none, none⟩
      = .ok ⟨"/health", 8080, 0, 10, 1, 1, 3⟩ ∧
    HealthCheckSchema.parse (HealthCheck.toInput ⟨"/health", 8080, 0, 10, 1, 1, 3⟩)
      = .ok ⟨"/health", 8080, 0, 10, 1, 1, 3⟩ ∧
    DockerImageSchema.parse ⟨.DOCKER_HUB, none, "postgrest", "v14.2"⟩
      = .ok ⟨.DOCKER_HUB, none, "postgrest", "v14.2"⟩ ∧
    DockerImageSchema.parse (DockerImage.toInput ⟨.DOCKER_HUB, none, "postgrest", "v14.2"⟩)
      = .ok ⟨.DOCKER_HUB, none, "postgrest", "v14.2"⟩ ∧
    GitHubSourceSchema.parse ⟨"supabase/postgrest", "main", none, none, none⟩
      = .ok ⟨"supabase/postgrest", "main", "/", "Dockerfile", false⟩ ∧
    GitHubSourceSchema.parse
        (GitHubSource.toInput ⟨"supabase/postgrest", "main", "/", "Dockerfile", false⟩)
      = .ok ⟨"supabase/postgrest", "main", "/", "Dockerfile", false⟩ ∧
    mkVolumeMount ⟨"data", "/var/lib/data", none⟩ = .ok ⟨"data", "/var/lib/data", "1GB"⟩ ∧
    mkVolumeMount (VolumeMount.toInput ⟨"data", "/var/lib/data", "1GB"⟩)
      = .ok ⟨"data", "/var/lib/data", "1GB"⟩ :=
  ⟨rfl,
   (c8_entity_projection_roundtrip_is_idempotent.1
     ⟨"PORT", .str "3000", none, none⟩ ⟨"PORT", .str "3000", .GENERAL, .RUN_TIME⟩ rfl).1,
   rfl,
   (c8_entity_projection_roundtrip_is_idempotent.2.1
     ⟨"/health", 8080, none, none, none, none, none⟩ ⟨"/health", 8080, 0, 10, 1, 1, 3⟩ rfl).1,
   rfl,
   (c8_entity_projection_roundtrip_is_idempotent.2.2.1
     ⟨.DOCKER_HUB, none, "postgrest", "v14.2"⟩ ⟨.DOCKER_HUB, none, "postgrest", "v14.2"⟩ rfl).1,
   rfl,
   (c8_entity_projection_roundtrip_is_idempotent.2.2.2.1
     ⟨"supabase/postgrest", "main", none, none, none⟩
     ⟨"supabase/postgrest", "main", "/", "Dockerfile", false⟩ rfl).1,
   rfl,
   (c8_entity_projection_roundtrip_is_idempotent.2.2.2.2
     ⟨"data", "/var/lib/data", none⟩ ⟨"data", "/var/lib/data", "1GB"⟩ rfl).1⟩

/-! ### Error-shape helper lemmas -/

theorem envVarParseErrorShape (c : EnvironmentVariableInput) (i : ZIssue)
    (h : EnvironmentVariableSchema.parse c = .error i) :
    i.path ≠ [] ∧ i.message ≠ "" := by
  simp only [EnvironmentVariableSchema.parse] at h
  repeat' split at h
  any_goals exact Except.noConfusion h
  all_goals (injection h with h'; subst h'; exact ⟨by simp, by simp⟩)

theorem dockerParseErrorShape (c : DockerImageInput) (i : ZIssue)
    (h : DockerImageSchema.parse c = .error i) :
    i.path ≠ [] ∧ i.message ≠ "" := by
  simp only [DockerImageSchema.parse] at h
  repeat' split at h
  any_goals exact Except.noConfusion h
  all_goals (injection h with h'; subst h'; exact ⟨by simp, by simp⟩)

/-- C3 (counterexample to the claim as stated): not every failure the
core raises is the single structured ValidationFailure kind.  The
synchronous serialization variant, on a tree with an unresolved
deferred value, throws a bare `Error` carrying only a message — no
field path, no offending value, no constraint — and that error is not
the structured `{field, value, constraint}` kind. -/
theorem c3_counterexample_sync_error_is_plain :
    toYAMLSync sampleDeferredTree = .error (.plainError pulumiSyncErrorMessage) ∧
    (ThrownError.plainError pulumiSyncErrorMessage).isStructuredValidationFailure
      = false :=
  ⟨rfl, rfl⟩

/-- C3 (amended): schema parsing and `addEnv` raise structured Zod
issues that do carry a field path and a violated-constraint message
(the `addEnv` collision issue has path `key`), but the synchronous
serialization variant raises a plain message-only error that is not the
structured `{field, value, constraint}` kind — so the failures do not
all funnel through the single structured ValidationFailure type. -/
theorem c3_amended_error_kinds_by_raiser :
    (∀ t : JValue, hasPulumiOutput t = true →
      toYAMLSync t = .error (.plainError pulumiSyncErrorMessage) ∧
      (ThrownError.plainError pulumiSyncErrorMessage).isStructuredValidationFailure
        = false) ∧
    (∀ (envs : List EnvironmentVariable) (env : EnvironmentVariable),
      envs.any (fun e => e.key == env.key) = true →
      addEnvList envs env = .error (duplicateEnvKeyIssue env.key) ∧
      (duplicateEnvKeyIssue env.key).path = ["key"] ∧
      (duplicateEnvKeyIssue env.key).message ≠ "") ∧
    (∀ (c : EnvironmentVariableInput) (i : ZIssue),
      EnvironmentVariableSchema.parse c = .error i → i.path ≠ [] ∧ i.message ≠ "") ∧
    (∀ (c : DockerImageInput) (i : ZIssue),
      DockerImageSchema.parse c = .error i → i.path ≠ [] ∧ i.message ≠ "") := by
  refine ⟨fun t h => ⟨?_, rfl⟩, fun envs env h => ⟨?_, rfl, ?_⟩,
          envVarParseErrorShape, dockerParseErrorShape⟩
  · simp [toYAMLSync, h]
  · simp [addEnvList, h]
  · simp only [duplicateEnvKeyIssue]
    intro heq
    have hlen := congrArg String.length heq
    simp [String.length_append] at hlen
    exact absurd hlen.1.1 (by decide)

/-- Witness for C3 (amended) at concrete inputs: a deferred-bearing
tree for the sync variant, a duplicate-key `addEnv`, and two failing
constructor inputs. -/
theorem c3_witness :
    (hasPulumiOutput sampleDeferredTree = true ∧
     toYAMLSync sampleDeferredTree = .error (.plainError pulumiSyncErrorMessage)) ∧
    ([sampleEnvK].any (fun e => e.key == sampleEnvKBis.key) = true ∧
     addEnvList [sampleEnvK] sampleEnvKBis
       = .error (duplicateEnvKeyIssue sampleEnvKBis.key)) ∧
    (EnvironmentVariableSchema.parse ⟨"KEY", .null, none, none⟩
       = .error ⟨["value"], "Value is required"⟩ ∧
     (["value"] : List String) ≠ [] ∧ "Value is required" ≠ "") ∧
    (DockerImageSchema.parse ⟨.DOCR, none, "postgrest", "v14.2"⟩
       = .error ⟨["registry"], "DOCR registry type requires non-empty registry field"⟩ ∧
     (["registry"] : List String) ≠ []) := by
  refine ⟨⟨rfl, (c3_amended_error_kinds_by_raiser.1 sampleDeferredTree rfl).1⟩,
          ⟨rfl, (c3_amended_error_kinds_by_raiser.2.1 [sampleEnvK] sampleEnvKBis rfl).1⟩,
          ⟨rfl, ?_, ?_⟩, ⟨rfl, ?_⟩⟩
  · exact (c3_amended_error_kinds_by_raiser.2.2.1 ⟨"KEY", .null, none, none⟩
      ⟨["value"], "Value is required"⟩ rfl).1
  · exact (c3_amended_error_kinds_by_raiser.2.2.1 ⟨"KEY", .null, none, none⟩
      ⟨["value"], "Value is required"⟩ rfl).2
  · exact (c3_amended_error_kinds_by_raiser.2.2.2 ⟨.DOCR, none, "postgrest", "v14.2"⟩
      ⟨["registry"], "DOCR registry type requires non-empty registry field"⟩ rfl).1
